import Mathlib

/-!
Verification of the number-guessing game core in `web/server_postgresql.py`:
the difficulty table, the guess evaluator inlined in `process_guess`, the
profile aggregator `update_player_profile`, and the leaderboard query
`get_leaderboard`. Each definition is a shallow embedding of the
corresponding Python function; machine state (the game row, the player's
profile row) is passed and returned explicitly.
-/

/-- The number range for a difficulty, from `get_range`:
`ranges = {'easy': (1, 50), 'medium': (1, 100), 'hard': (1, 500)}`,
`ranges.get(difficulty, (1, 100))`. -/
def get_range (difficulty : String) : Int × Int :=
  if difficulty = "easy" then (1, 50)
  else if difficulty = "medium" then (1, 100)
  else if difficulty = "hard" then (1, 500)
  else (1, 100)

/-- The identical `ranges` dictionary lookup inlined in `init_game`. -/
def init_game_ranges (difficulty : String) : Int × Int :=
  if difficulty = "easy" then (1, 50)
  else if difficulty = "medium" then (1, 100)
  else if difficulty = "hard" then (1, 500)
  else (1, 100)

/-- Proximity band of a missed guess, per the feedback branches of
`process_guess` (`diff <= 5`, `diff <= 15`, `diff <= 30`, else). -/
inductive Band
  | VeryClose
  | Warm
  | Cold
  | WayOff
deriving DecidableEq, Repr

/-- Direction of a missed guess (`'Too low' if guess < secret else 'Too high'`). -/
inductive Direction
  | TooLow
  | TooHigh
deriving DecidableEq, Repr

/-- Tagged outcome of evaluating one guess: out-of-range rejection,
win, or a miss with a proximity band and a direction. -/
inductive Outcome
  | OutOfRange
  | Win
  | Miss (band : Band) (direction : Direction)
deriving DecidableEq, Repr

/-- The band classification from the `else` branch of `process_guess`:
`diff = abs(guess - secret)`, then the ascending threshold chain. -/
def bandOf (diff : Int) : Band :=
  if diff ≤ 5 then Band.VeryClose
  else if diff ≤ 15 then Band.Warm
  else if diff ≤ 30 then Band.Cold
  else Band.WayOff

/-- The guess evaluator as inlined in `process_guess`: the range check
(`guess < low or guess > high`) runs first, then the win test
(`guess == game.secret_number`), then band and direction. -/
def evaluate (guess secret low high : Int) : Outcome :=
  if guess < low ∨ guess > high then Outcome.OutOfRange
  else if guess = secret then Outcome.Win
  else
    Outcome.Miss (bandOf |guess - secret|)
      (if guess < secret then Direction.TooLow else Direction.TooHigh)

/-- The `player_profiles` row (model `PlayerProfile`). -/
structure PlayerProfile where
  user_id : Nat
  games_won : Nat
  games_lost : Nat
  best_score : Option Nat
  worst_score : Option Nat
  total_attempts : Nat
  current_streak : Nat
  best_streak : Nat
  achievements : List String
deriving DecidableEq, Repr

/-- The `games` row (model `Game`); `completed_at` holds an abstract
timestamp. -/
structure Game where
  id : Nat
  user_id : Nat
  difficulty : String
  attempts : Nat
  won : Bool
  secret_number : Int
  guesses : List Int
  completed_at : Option Nat
deriving DecidableEq, Repr

/-- One conditional badge append from the achievement block of
`update_player_profile`: `if cond and badge not in achievements:
achievements.append(badge)`. -/
def award (l : List String) (c : Prop) [Decidable c] (badge : String) : List String :=
  if c ∧ badge ∉ l then l ++ [badge] else l

/-- Badge string appended when `attempts == 1`. -/
def oneShotWonder : String := "🎯 One-Shot Wonder"

/-- Badge string appended when `profile.current_streak == 3`. -/
def hotStreak : String := "🔥 Hot Streak"

/-- Badge string appended when `profile.games_won == 10`. -/
def veteran : String := "🏆 Veteran"

/-- The body of `update_player_profile` on an existing profile row:
increments `games_won`, `current_streak`, `total_attempts`, folds
`best_score`/`worst_score`/`best_streak`, then runs the three guarded
achievement appends in order. -/
def update_player_profile (profile : PlayerProfile) (attempts : Nat) : PlayerProfile :=
  let games_won := profile.games_won + 1
  let current_streak := profile.current_streak + 1
  let total_attempts := profile.total_attempts + attempts
  let best_score :=
    match profile.best_score with
    | none => some attempts
    | some b => if attempts < b then some attempts else some b
  let worst_score :=
    match profile.worst_score with
    | none => some attempts
    | some w => if attempts > w then some attempts else some w
  let best_streak :=
    if current_streak > profile.best_streak then current_streak else profile.best_streak
  let a₁ := award profile.achievements (attempts = 1) oneShotWonder
  let a₂ := award a₁ (current_streak = 3) hotStreak
  let a₃ := award a₂ (games_won = 10) veteran
  { profile with
    games_won := games_won
    current_streak := current_streak
    total_attempts := total_attempts
    best_score := best_score
    worst_score := worst_score
    best_streak := best_streak
    achievements := a₃ }

/-- `update_player_profile` at the level of the user's profile row:
`PlayerProfile.query.filter_by(user_id=user_id).first()` yields the row or
`None`, and the whole update body is guarded by `if profile:` — when no row
exists nothing is updated and no row is created. -/
def update_profile_row (row : Option PlayerProfile) (attempts : Nat) : Option PlayerProfile :=
  match row with
  | none => none
  | some p => some (update_player_profile p attempts)

/-- The state effect of `process_guess` on an owned game: range check
before any mutation; in-range guesses are appended and counted; a correct
guess marks the game won, stamps `completed_at` and updates the profile
row; otherwise band feedback is produced. -/
def process_guess (now : Nat) (game : Game) (row : Option PlayerProfile) (guess : Int) :
    Game × Option PlayerProfile × Outcome :=
  let low := (get_range game.difficulty).1
  let high := (get_range game.difficulty).2
  if guess < low ∨ guess > high then
    (game, row, Outcome.OutOfRange)
  else
    let g₁ : Game := { game with attempts := game.attempts + 1, guesses := game.guesses ++ [guess] }
    if guess = game.secret_number then
      ({ g₁ with won := true, completed_at := some now },
       update_profile_row row g₁.attempts,
       Outcome.Win)
    else
      (g₁, row,
       Outcome.Miss (bandOf |guess - game.secret_number|)
         (if guess < game.secret_number then Direction.TooLow else Direction.TooHigh))

/-- The ownership guard at the top of `process_guess`:
`if not game or game.user_id != user_id: return redirect(...)` — reported
as `none`; otherwise the guess is processed. -/
def process_guess_checked (now : Nat) (user_id : Nat) (game : Option Game)
    (row : Option PlayerProfile) (guess : Int) :
    Option (Game × Option PlayerProfile × Outcome) :=
  match game with
  | none => none
  | some g => if g.user_id = user_id then some (process_guess now g row guess) else none

/-- The `users` row fields read by the leaderboard query. -/
structure UserRow where
  id : Nat
  name : String
deriving DecidableEq, Repr

/-- The relational store seen by `get_leaderboard`: the `users` table and
the `player_profiles` table (`user_id` unique per the schema). -/
structure Store where
  users : List UserRow
  profiles : List PlayerProfile
deriving Repr

/-- One leaderboard entry `{'name': ..., 'best_score': ..., 'wins': ...}`. -/
structure LeaderboardEntry where
  name : String
  best_score : Nat
  wins : Nat
deriving DecidableEq, Repr

/-- Lookup of a user's unique profile row
(`PlayerProfile.query.filter_by(user_id=...)`). -/
def profile_for (profiles : List PlayerProfile) (uid : Nat) : Option PlayerProfile :=
  profiles.find? (fun p => p.user_id == uid)

/-- The inner join `User ⋈ PlayerProfile` on the owning user id, one row
per user that has a profile. -/
def join_rows (s : Store) : List (UserRow × PlayerProfile) :=
  s.users.filterMap (fun u => (profile_for s.profiles u.id).map (fun p => (u, p)))

/-- The `ORDER BY best_score ASC` comparison on joined rows. -/
def row_le (a b : UserRow × PlayerProfile) : Prop :=
  a.2.best_score.getD 0 ≤ b.2.best_score.getD 0

instance : DecidableRel row_le :=
  fun a b => inferInstanceAs (Decidable (a.2.best_score.getD 0 ≤ b.2.best_score.getD 0))

instance : IsTotal (UserRow × PlayerProfile) row_le :=
  ⟨fun a b => Nat.le_total (a.2.best_score.getD 0) (b.2.best_score.getD 0)⟩

instance : IsTrans (UserRow × PlayerProfile) row_le :=
  ⟨fun _ _ _ hab hbc => Nat.le_trans hab hbc⟩

/-- The projection of one joined row to a result entry. -/
def entry_of (r : UserRow × PlayerProfile) : LeaderboardEntry :=
  { name := r.1.name, best_score := r.2.best_score.getD 0, wins := r.2.games_won }

/-- `get_leaderboard(limit)`: join users with profiles, keep rows whose
`best_score` is not null, order ascending by `best_score`, apply
`query.limit(limit)` only when `if limit:` is truthy (a `None` or `0`
limit leaves the query unlimited), and project each row to
`{name, best_score, wins}`. -/
def get_leaderboard (s : Store) (limit : Option Nat) : List LeaderboardEntry :=
  let rows := (join_rows s).filter (fun r => r.2.best_score.isSome)
  let sorted := rows.insertionSort row_le
  let limited :=
    match limit with
    | some n => if n ≠ 0 then sorted.take n else sorted
    | none => sorted
  limited.map entry_of

/-- A concrete `easy` game row (range 1–50) used to evaluate the model on
explicit inputs. -/
def exGame : Game :=
  { id := 1, user_id := 7, difficulty := "easy", attempts := 2, won := false,
    secret_number := 25, guesses := [10], completed_at := none }

/-- A concrete profile row used to evaluate the model on explicit inputs. -/
def exProfile : PlayerProfile :=
  { user_id := 7, games_won := 4, games_lost := 0, best_score := some 5,
    worst_score := some 9, total_attempts := 30, current_streak := 2,
    best_streak := 3, achievements := [] }

/-- A concrete two-user store in which both profiles have a non-null
`best_score`. -/
def exStore : Store :=
  { users := [{ id := 1, name := "ada" }, { id := 2, name := "bob" }],
    profiles :=
      [{ user_id := 1, games_won := 3, games_lost := 0, best_score := some 4,
         worst_score := some 6, total_attempts := 10, current_streak := 1,
         best_streak := 2, achievements := [] },
       { user_id := 2, games_won := 1, games_lost := 0, best_score := some 2,
         worst_score := some 2, total_attempts := 2, current_streak := 1,
         best_streak := 1, achievements := [] }] }

/-! ## Difficulty table -/

/-- C8: `get_range` is total: `easy ↦ [1,50]`, `medium ↦ [1,100]`,
`hard ↦ [1,500]`, any unknown difficulty yields `medium`'s bounds
`[1,100]`, the bounds always satisfy `low ≤ high`, and the copy of the
ranges dictionary in `init_game` agrees with `get_range`. -/
theorem get_range_total (d : String) :
    get_range "easy" = (1, 50) ∧ get_range "medium" = (1, 100) ∧
    get_range "hard" = (1, 500) ∧
    (d ≠ "easy" → d ≠ "medium" → d ≠ "hard" → get_range d = get_range "medium") ∧
    (get_range d).1 ≤ (get_range d).2 ∧
    init_game_ranges d = get_range d := by
  refine ⟨by decide, by decide, by decide, ?_, ?_, ?_⟩
  · intro h₁ h₂ h₃
    simp [get_range, h₁, h₂, h₃]
  · unfold get_range
    split_ifs <;> decide
  · unfold get_range init_game_ranges
    split_ifs <;> rfl

/-- Witness for `get_range_total` at the unrecognized difficulty
`"expert"`. -/
theorem get_range_total_witness :
    "expert" ≠ "easy" ∧ "expert" ≠ "medium" ∧ "expert" ≠ "hard" ∧
    get_range "expert" = get_range "medium" :=
  ⟨by decide, by decide, by decide,
    (get_range_total "expert").2.2.2.1 (by decide) (by decide) (by decide)⟩

/-! ## Guess evaluator -/

/-- C7 (amended): a guess equal to the secret wins whenever it lies inside
the difficulty range; the out-of-range check in `process_guess` runs
before the win test, so equality alone does not suffice. -/
theorem evaluate_win (guess secret low high : Int)
    (heq : guess = secret) (hlo : low ≤ guess) (hhi : guess ≤ high) :
    evaluate guess secret low high = Outcome.Win := by
  unfold evaluate
  rw [if_neg (by omega), if_pos heq]

/-- Witness for `evaluate_win`: guessing the secret 50 inside `[1,100]`. -/
theorem evaluate_win_witness :
    (50 : Int) = 50 ∧ (1 : Int) ≤ 50 ∧ (50 : Int) ≤ 100 ∧
    evaluate 50 50 1 100 = Outcome.Win :=
  ⟨rfl, by decide, by decide, evaluate_win 50 50 1 100 rfl (by decide) (by decide)⟩

/-- Counterexample to C7 as stated: the guess 200 equals the secret 200
but lies outside the range `[1,100]`, and the evaluator returns
`OutOfRange`, not `Win`. -/
theorem evaluate_equal_but_out_of_range :
    (200 : Int) = 200 ∧ evaluate 200 200 1 100 = Outcome.OutOfRange ∧
    evaluate 200 200 1 100 ≠ Outcome.Win := by
  refine ⟨rfl, by decide, by decide⟩

/-- C3: for an in-range non-winning guess the evaluator classifies
`|guess - secret|` by the ascending inclusive thresholds 5, 15, 30
(first match wins) with direction `TooLow` when the guess is below the
secret and `TooHigh` otherwise, and every integer input produces exactly
one outcome variant. -/
theorem evaluate_bands (guess secret low high : Int)
    (hlo : low ≤ guess) (hhi : guess ≤ high) (hne : guess ≠ secret) :
    (|guess - secret| ≤ 5 →
      evaluate guess secret low high = Outcome.Miss Band.VeryClose
        (if guess < secret then Direction.TooLow else Direction.TooHigh)) ∧
    (5 < |guess - secret| → |guess - secret| ≤ 15 →
      evaluate guess secret low high = Outcome.Miss Band.Warm
        (if guess < secret then Direction.TooLow else Direction.TooHigh)) ∧
    (15 < |guess - secret| → |guess - secret| ≤ 30 →
      evaluate guess secret low high = Outcome.Miss Band.Cold
        (if guess < secret then Direction.TooLow else Direction.TooHigh)) ∧
    (30 < |guess - secret| →
      evaluate guess secret low high = Outcome.Miss Band.WayOff
        (if guess < secret then Direction.TooLow else Direction.TooHigh)) ∧
    (∀ g s lo hi : Int, evaluate g s lo hi = Outcome.OutOfRange ∨
      evaluate g s lo hi = Outcome.Win ∨
      ∃ b dir, evaluate g s lo hi = Outcome.Miss b dir) := by
  have hin : ¬ (guess < low ∨ guess > high) := by omega
  refine ⟨?_, ?_, ?_, ?_, ?_⟩
  · intro h₁
    unfold evaluate bandOf
    rw [if_neg hin, if_neg hne, if_pos h₁]
  · intro h₁ h₂
    unfold evaluate bandOf
    rw [if_neg hin, if_neg hne, if_neg (by omega), if_pos h₂]
  · intro h₁ h₂
    unfold evaluate bandOf
    rw [if_neg hin, if_neg hne, if_neg (by omega), if_neg (by omega), if_pos h₂]
  · intro h₁
    unfold evaluate bandOf
    rw [if_neg hin, if_neg hne, if_neg (by omega), if_neg (by omega), if_neg (by omega)]
  · intro g s lo hi
    unfold evaluate
    split_ifs <;> simp

/-- Witness for `evaluate_bands`: guess 10 against secret 12 in `[1,100]`
is within distance 5, hence `VeryClose` and `TooLow`. -/
theorem evaluate_bands_witness :
    (1 : Int) ≤ 10 ∧ (10 : Int) ≤ 100 ∧ (10 : Int) ≠ 12 ∧
    (|(10 : Int) - 12| ≤ 5 →
      evaluate 10 12 1 100 = Outcome.Miss Band.VeryClose
        (if (10 : Int) < 12 then Direction.TooLow else Direction.TooHigh)) :=
  ⟨by decide, by decide, by decide,
    (evaluate_bands 10 12 1 100 (by decide) (by decide) (by decide)).1⟩

/-! ## Game session store -/

/-- C1 (amended): for an existing game owned by the calling user and a
guess within the difficulty's range, processing the guess appends the
guess to the guess sequence and increments `attempts`; the ownership
check succeeds and the store is updated. -/
theorem recordGuess_appends_in_range (now uid : Nat) (g : Game)
    (row : Option PlayerProfile) (guess : Int) (hown : g.user_id = uid)
    (hlo : (get_range g.difficulty).1 ≤ guess)
    (hhi : guess ≤ (get_range g.difficulty).2) :
    process_guess_checked now uid (some g) row guess =
      some (process_guess now g row guess) ∧
    (process_guess now g row guess).1.guesses = g.guesses ++ [guess] ∧
    (process_guess now g row guess).1.attempts = g.attempts + 1 := by
  have hin : ¬ (guess < (get_range g.difficulty).1 ∨ guess > (get_range g.difficulty).2) := by
    omega
  refine ⟨by simp [process_guess_checked, hown], ?_, ?_⟩ <;>
    · simp only [process_guess, hin, if_false]
      by_cases hsec : guess = g.secret_number <;> simp [hsec]

/-- Witness for `recordGuess_appends_in_range` on the concrete easy game
`exGame` with the in-range guess 30. -/
theorem recordGuess_appends_in_range_witness :
    exGame.user_id = 7 ∧ (get_range exGame.difficulty).1 ≤ 30 ∧
    (30 : Int) ≤ (get_range exGame.difficulty).2 ∧
    ((process_guess 0 exGame none 30).1.guesses = exGame.guesses ++ [30] ∧
     (process_guess 0 exGame none 30).1.attempts = exGame.attempts + 1) :=
  ⟨rfl, by decide, by decide,
    (recordGuess_appends_in_range 0 7 exGame none 30 rfl (by decide) (by decide)).2⟩

/-- Counterexample to C1 as stated: on the owned easy game `exGame`
(range `[1,50]`, two prior attempts, guesses `[10]`) the out-of-range
guess 100 is NOT appended and `attempts` is NOT incremented — the range
check in `process_guess` returns before the store is touched. -/
theorem recordGuess_out_of_range_not_persisted :
    (process_guess 0 exGame none 100).1.guesses = [10] ∧
    (process_guess 0 exGame none 100).1.attempts = 2 ∧
    ¬ ((process_guess 0 exGame none 100).1.guesses = exGame.guesses ++ [100] ∧
       (process_guess 0 exGame none 100).1.attempts = exGame.attempts + 1) := by
  refine ⟨by decide, by decide, by decide⟩

/-- C10: an out-of-range guess on an owned game leaves the game row and
the profile row exactly as they were — attempts, guesses, won,
secret_number, completed_at all keep their prior values — and the outcome
is only the `OutOfRange` error message. -/
theorem out_of_range_guess_no_effect (now uid : Nat) (g : Game)
    (row : Option PlayerProfile) (guess : Int) (hown : g.user_id = uid)
    (hout : guess < (get_range g.difficulty).1 ∨ guess > (get_range g.difficulty).2) :
    process_guess_checked now uid (some g) row guess =
      some (g, row, Outcome.OutOfRange) := by
  simp [process_guess_checked, process_guess, hown, hout]

/-- Witness for `out_of_range_guess_no_effect`: guessing 100 on the easy
game `exGame` changes nothing. -/
theorem out_of_range_guess_no_effect_witness :
    exGame.user_id = 7 ∧
    ((100 : Int) < (get_range exGame.difficulty).1 ∨
      (100 : Int) > (get_range exGame.difficulty).2) ∧
    process_guess_checked 0 7 (some exGame) (some exProfile) 100 =
      some (exGame, some exProfile, Outcome.OutOfRange) :=
  ⟨rfl, by decide,
    out_of_range_guess_no_effect 0 7 exGame (some exProfile) 100 rfl (by decide)⟩

/-! ## Profile aggregator -/

/-- C2: on an existing profile, a win with `attempts` taken increments
`games_won` and `current_streak`, adds `attempts` to `total_attempts`,
folds `best_score` to the minimum and `worst_score` to the maximum of the
previous value (or `attempts` when null) with `attempts`, and raises
`best_streak` to the new `current_streak` when exceeded. -/
theorem recordWin_updates_existing_profile (p : PlayerProfile) (a : Nat) :
    update_profile_row (some p) a = some (update_player_profile p a) ∧
    (update_player_profile p a).games_won = p.games_won + 1 ∧
    (update_player_profile p a).current_streak = p.current_streak + 1 ∧
    (update_player_profile p a).total_attempts = p.total_attempts + a ∧
    (update_player_profile p a).best_score = some (min (p.best_score.getD a) a) ∧
    (update_player_profile p a).worst_score = some (max (p.worst_score.getD a) a) ∧
    (update_player_profile p a).best_streak = max p.best_streak (p.current_streak + 1) := by
  refine ⟨rfl, rfl, rfl, rfl, ?_, ?_, ?_⟩
  · simp only [update_player_profile]
    cases hb : p.best_score <;> simp [Option.getD, Nat.min_def]
    · split_ifs <;> simp only [Option.some.injEq] <;> omega
  · simp only [update_player_profile]
    cases hw : p.worst_score <;> simp [Option.getD, Nat.max_def]
    · split_ifs <;> simp only [Option.some.injEq] <;> omega
  · simp only [update_player_profile]
    rw [Nat.max_def]
    split_ifs <;> omega

/-- C6 (amended): the win update is applied only when the user's profile
row already exists; when the lookup yields no row, `update_player_profile`
is a no-op — it neither creates a profile row nor records anything. -/
theorem recordWin_requires_existing_profile (a : Nat) (row : Option PlayerProfile) :
    (update_profile_row row a = none ↔ row = none) ∧
    (∀ p, row = some p →
      update_profile_row row a = some (update_player_profile p a) ∧
      (update_player_profile p a).games_won = p.games_won + 1) := by
  cases row with
  | none => exact ⟨by simp [update_profile_row], by simp⟩
  | some q =>
    refine ⟨by simp [update_profile_row], ?_⟩
    intro p hp
    cases hp
    exact ⟨rfl, rfl⟩

/-- Witness for `recordWin_requires_existing_profile` on the concrete
profile `exProfile`. -/
theorem recordWin_requires_existing_profile_witness :
    some exProfile = some exProfile ∧
    (update_profile_row (some exProfile) 2 = some (update_player_profile exProfile 2) ∧
     (update_player_profile exProfile 2).games_won = exProfile.games_won + 1) :=
  ⟨rfl, (recordWin_requires_existing_profile 2 (some exProfile)).2 exProfile rfl⟩

/-- Counterexample to C6 as stated: a win recorded for a user with no
profile row creates nothing and records nothing — the row is still absent
afterwards, so no lazy creation happens. -/
theorem recordWin_no_profile_is_noop : update_profile_row none 3 = none := rfl

/-! ## Achievements -/

/-- A guarded badge append keeps the badge list duplicate-free. -/
theorem award_nodup (l : List String) (c : Prop) [Decidable c] (badge : String)
    (h : l.Nodup) : (award l c badge).Nodup := by
  unfold award
  split_ifs with hc
  · simp [List.nodup_append, h, hc.2]
  · exact h

/-- The awarded badge is present afterwards iff the condition held or it
was already present. -/
theorem mem_award_self (l : List String) (c : Prop) [Decidable c] (badge : String) :
    badge ∈ award l c badge ↔ c ∨ badge ∈ l := by
  unfold award
  split_ifs with hc
  · simp [hc.1]
  · constructor
    · exact Or.inr
    · rintro (h | h)
      · by_cases hm : badge ∈ l
        · exact hm
        · exact absurd ⟨h, hm⟩ hc
      · exact h

/-- A guarded badge append leaves membership of every other string
unchanged. -/
theorem mem_award_other (l : List String) (c : Prop) [Decidable c] (badge x : String)
    (hx : x ≠ badge) : x ∈ award l c badge ↔ x ∈ l := by
  unfold award
  split_ifs
  · simp [hx]
  · exact Iff.rfl

/-- The achievement list produced by one win: the three guarded appends,
in source order, against the updated counters. -/
theorem update_profile_achievements (p : PlayerProfile) (a : Nat) :
    (update_player_profile p a).achievements =
      award (award (award p.achievements (a = 1) oneShotWonder)
        (p.current_streak + 1 = 3) hotStreak) (p.games_won + 1 = 10) veteran := rfl

/-- One win preserves freedom from duplicate badges. -/
theorem update_profile_achievements_nodup (p : PlayerProfile) (a : Nat)
    (h : p.achievements.Nodup) : (update_player_profile p a).achievements.Nodup := by
  rw [update_profile_achievements]
  exact award_nodup _ _ _ (award_nodup _ _ _ (award_nodup _ _ _ h))

/-- Membership of "One-Shot Wonder" after a win. -/
theorem oneShot_mem_update (p : PlayerProfile) (a : Nat) :
    oneShotWonder ∈ (update_player_profile p a).achievements ↔
      a = 1 ∨ oneShotWonder ∈ p.achievements := by
  rw [update_profile_achievements]
  rw [mem_award_other _ _ _ _ (by decide), mem_award_other _ _ _ _ (by decide)]
  exact mem_award_self _ _ _

/-- Membership of "Hot Streak" after a win. -/
theorem hotStreak_mem_update (p : PlayerProfile) (a : Nat) :
    hotStreak ∈ (update_player_profile p a).achievements ↔
      p.current_streak + 1 = 3 ∨ hotStreak ∈ p.achievements := by
  rw [update_profile_achievements]
  rw [mem_award_other _ _ _ _ (by decide), mem_award_self]
  rw [mem_award_other _ _ _ _ (by decide)]

/-- Membership of "Veteran" after a win. -/
theorem veteran_mem_update (p : PlayerProfile) (a : Nat) :
    veteran ∈ (update_player_profile p a).achievements ↔
      p.games_won + 1 = 10 ∨ veteran ∈ p.achievements := by
  rw [update_profile_achievements]
  rw [mem_award_self]
  rw [mem_award_other _ _ _ _ (by decide), mem_award_other _ _ _ _ (by decide)]

/-- C5: each achievement check is independent and idempotent — after a
win, "One-Shot Wonder" is present iff the game took 1 attempt or it was
already present, "Hot Streak" iff the new streak equals exactly 3 or it
was already present, "Veteran" iff the new win count equals exactly 10 or
it was already present; a duplicate-free badge set stays duplicate-free,
and two consecutive one-attempt wins leave "One-Shot Wonder" present
exactly once. -/
theorem achievements_independent_idempotent (p : PlayerProfile) (a : Nat)
    (hnd : p.achievements.Nodup) :
    (update_player_profile p a).achievements.Nodup ∧
    (oneShotWonder ∈ (update_player_profile p a).achievements ↔
      a = 1 ∨ oneShotWonder ∈ p.achievements) ∧
    (hotStreak ∈ (update_player_profile p a).achievements ↔
      p.current_streak + 1 = 3 ∨ hotStreak ∈ p.achievements) ∧
    (veteran ∈ (update_player_profile p a).achievements ↔
      p.games_won + 1 = 10 ∨ veteran ∈ p.achievements) ∧
    (update_player_profile (update_player_profile p 1) 1).achievements.count
      oneShotWonder = 1 := by
  refine ⟨update_profile_achievements_nodup p a hnd, oneShot_mem_update p a,
    hotStreak_mem_update p a, veteran_mem_update p a, ?_⟩
  have h₁ : oneShotWonder ∈ (update_player_profile p 1).achievements :=
    (oneShot_mem_update p 1).mpr (Or.inl rfl)
  have h₂ : oneShotWonder ∈
      (update_player_profile (update_player_profile p 1) 1).achievements :=
    (oneShot_mem_update _ 1).mpr (Or.inl rfl)
  have hn₂ : (update_player_profile (update_player_profile p 1) 1).achievements.Nodup :=
    update_profile_achievements_nodup _ 1 (update_profile_achievements_nodup p 1 hnd)
  exact List.count_eq_one_of_mem hn₂ h₂

/-- Witness for `achievements_independent_idempotent` on the concrete
profile `exProfile` (empty badge list) with a 2-attempt win. -/
theorem achievements_independent_idempotent_witness :
    exProfile.achievements.Nodup ∧
    ((update_player_profile exProfile 2).achievements.Nodup ∧
     (oneShotWonder ∈ (update_player_profile exProfile 2).achievements ↔
       (2 : Nat) = 1 ∨ oneShotWonder ∈ exProfile.achievements) ∧
     (hotStreak ∈ (update_player_profile exProfile 2).achievements ↔
       exProfile.current_streak + 1 = 3 ∨ hotStreak ∈ exProfile.achievements) ∧
     (veteran ∈ (update_player_profile exProfile 2).achievements ↔
       exProfile.games_won + 1 = 10 ∨ veteran ∈ exProfile.achievements) ∧
     (update_player_profile (update_player_profile exProfile 1) 1).achievements.count
       oneShotWonder = 1) :=
  ⟨by simp [exProfile], achievements_independent_idempotent exProfile 2 (by simp [exProfile])⟩

/-! ## Leaderboard query -/

/-- Membership in the user–profile inner join. -/
theorem mem_join_rows (s : Store) (u : UserRow) (p : PlayerProfile) :
    (u, p) ∈ join_rows s ↔ u ∈ s.users ∧ profile_for s.profiles u.id = some p := by
  simp only [join_rows, List.mem_filterMap, Option.map_eq_some']
  constructor
  · rintro ⟨v, hv, q, hq, heq⟩
    injection heq with h₁ h₂
    subst h₁
    subst h₂
    exact ⟨hv, hq⟩
  · rintro ⟨hu, hp⟩
    exact ⟨u, hu, p, hp, rfl⟩

/-- C4: the unlimited leaderboard is sorted ascending by `best_score`; an
entry appears exactly for the users whose profile lookup succeeds with a
non-null `best_score`, carrying that user's name, score and win count;
and when every profile's `best_score` is null the result is the empty
sequence. -/
theorem topScores_spec (s : Store) :
    ((get_leaderboard s none).Pairwise fun a b => a.best_score ≤ b.best_score) ∧
    (∀ e, e ∈ get_leaderboard s none ↔
      ∃ u p b, u ∈ s.users ∧ profile_for s.profiles u.id = some p ∧
        p.best_score = some b ∧
        e = { name := u.name, best_score := b, wins := p.games_won }) ∧
    ((∀ u ∈ s.users, ∀ p, profile_for s.profiles u.id = some p → p.best_score = none) →
      get_leaderboard s none = []) := by
  set rows := (join_rows s).filter (fun r => r.2.best_score.isSome) with hrows
  have hout : get_leaderboard s none = (rows.insertionSort row_le).map entry_of := rfl
  refine ⟨?_, ?_, ?_⟩
  · rw [hout]
    refine List.Pairwise.map entry_of ?_ (List.sorted_insertionSort row_le rows)
    intro a b hab
    exact hab
  · intro e
    rw [hout]
    simp only [List.mem_map]
    constructor
    · rintro ⟨r, hr, rfl⟩
      have hr' : r ∈ rows := (List.perm_insertionSort row_le rows).mem_iff.mp hr
      rw [hrows] at hr'
      obtain ⟨hrj, hbs⟩ := List.mem_filter.mp hr'
      obtain ⟨b, hb⟩ := Option.isSome_iff_exists.mp (by simpa using hbs)
      obtain ⟨u, p⟩ := r
      obtain ⟨hu, hp⟩ := (mem_join_rows s u p).mp hrj
      exact ⟨u, p, b, hu, hp, hb, by simp only [] at hb; simp [entry_of, hb]⟩
    · rintro ⟨u, p, b, hu, hp, hb, rfl⟩
      refine ⟨(u, p), ?_, by simp [entry_of, hb]⟩
      apply (List.perm_insertionSort row_le rows).mem_iff.mpr
      rw [hrows]
      exact List.mem_filter.mpr ⟨(mem_join_rows s u p).mpr ⟨hu, hp⟩, by simp [hb]⟩
  · intro hnone
    rw [hout]
    have hempty : rows = [] := by
      rw [hrows]
      apply List.filter_eq_nil_iff.mpr
      rintro ⟨u, p⟩ hr
      obtain ⟨hu, hp⟩ := (mem_join_rows s u p).mp hr
      simp [hnone u hu p hp]
    rw [hempty]
    rfl

/-- Witness for `topScores_spec` on the concrete two-user store
`exStore`. -/
theorem topScores_spec_witness :
    ((get_leaderboard exStore none).Pairwise fun a b => a.best_score ≤ b.best_score) ∧
    (∀ e, e ∈ get_leaderboard exStore none ↔
      ∃ u p b, u ∈ exStore.users ∧ profile_for exStore.profiles u.id = some p ∧
        p.best_score = some b ∧
        e = { name := u.name, best_score := b, wins := p.games_won }) ∧
    ((∀ u ∈ exStore.users, ∀ p, profile_for exStore.profiles u.id = some p →
        p.best_score = none) →
      get_leaderboard exStore none = []) :=
  topScores_spec exStore

/-- C9 (amended): for every non-zero `limit` the leaderboard is exactly
the first `limit` rows of the full ascending ordering, hence at most
`limit` entries; a `limit` of `0` is falsy in `if limit:` and is treated
as no limit at all. -/
theorem topScores_limit (s : Store) (n : Nat) (hn : n ≠ 0) :
    get_leaderboard s (some n) = (get_leaderboard s none).take n ∧
    (get_leaderboard s (some n)).length ≤ n := by
  have h : get_leaderboard s (some n) =
      (if n ≠ 0 then
        (((join_rows s).filter (fun r => r.2.best_score.isSome)).insertionSort row_le).take n
      else
        ((join_rows s).filter (fun r => r.2.best_score.isSome)).insertionSort row_le).map
        entry_of := rfl
  rw [if_pos hn] at h
  constructor
  · rw [h, List.map_take]
    rfl
  · rw [h]
    simp only [List.length_map, List.length_take]
    exact Nat.min_le_left n _

/-- Witness for `topScores_limit` on `exStore` with limit 1. -/
theorem topScores_limit_witness :
    (1 : Nat) ≠ 0 ∧
    (get_leaderboard exStore (some 1) = (get_leaderboard exStore none).take 1 ∧
     (get_leaderboard exStore (some 1)).length ≤ 1) :=
  ⟨by decide, topScores_limit exStore 1 (by decide)⟩

/-- Counterexample to C9 as stated: in `exStore` both users have non-null
best scores, and a limit of `0` — falsy in Python — returns all 2 entries
instead of at most 0. -/
theorem topScores_zero_limit_returns_all :
    (get_leaderboard exStore (some 0)).length = 2 ∧
    ¬ ((get_leaderboard exStore (some 0)).length ≤ 0) := by
  refine ⟨by decide, by decide⟩
